import Mathlib

/-!
Shallow embedding of the Granite frontend (the polling client, the Generate
submission handler and the output page, all from the process/create/output
page logic of the integrated frontend script) together with spec-modelled
fragments of the FastAPI backend whose code is not part of this repository
snapshot (only its README is).
-/

namespace Granite

/-- One line appended to the terminal-style log (tag, message, isSuccess),
mirroring the arguments of addTerminalLine. -/
structure LogLine where
  tag : String
  message : String
  isSuccess : Bool
  deriving DecidableEq, Repr

/-- JS string truthiness for `a || b`: an empty string is falsy.  Absent JSON
fields are modelled as the empty string. -/
def jsOr (a b : String) : String :=
  if a ≠ "" then a else b

/-- JS String.prototype.trim: strips leading and trailing whitespace,
written over the character list so it evaluates by computation. -/
def jsTrim (s : String) : String :=
  String.mk (((s.data.dropWhile Char.isWhitespace).reverse.dropWhile
    Char.isWhitespace).reverse)

/-- JS Array.prototype.indexOf, accumulator form: -1 when absent, else the
first index of the element. -/
def jsIndexOfAux (s : String) : List String → Int → Int
  | [], _ => -1
  | x :: xs, acc => if x == s then acc else jsIndexOfAux s xs (acc + 1)

/-- JS Array.prototype.indexOf on a list of strings. -/
def jsIndexOf (l : List String) (s : String) : Int :=
  jsIndexOfAux s l 0

/-- JS String.prototype.padStart(2, "0") applied to the decimal rendering of
a number, as used for the stage badge. -/
def padStart2 (n : Nat) : String :=
  if n < 10 then "0" ++ toString n else toString n

/-- The stepNames array of the process page: the six pipeline stage names in
client order. -/
def stepNames : List String :=
  ["extraction", "planning", "animation", "narration", "composition", "quality"]

/-- The stepLabels array of the process page, index-aligned with stepNames. -/
def stepLabels : List String :=
  ["Extracting content from document",
   "Planning lesson structure",
   "Generating Manim animation",
   "Creating narration audio",
   "Composing final video",
   "Quality checking output"]

/-- Modelled from the spec: the Pipeline Definition (the fixed ordered list of
six stages, extraction through quality) lives in the backend, which is not
under src/; only its README enumerates the agents in this order. -/
def pipelineStages : List String :=
  ["extraction", "planning", "animation", "narration", "composition", "quality"]

/-- The API_BASE constant: localhost when the page was opened from file://,
else the empty relative base. -/
def apiBase (isFileProtocol : Bool) : String :=
  if isFileProtocol then "http://localhost:8000" else ""

/-- URL of the submission endpoint used by the Generate click handler. -/
def generateUrl (base : String) : String :=
  base ++ "/api/generate"

/-- URL of the status endpoint polled by the process page for a job id. -/
def statusUrl (base jobId : String) : String :=
  base ++ "/api/status/" ++ jobId

/-- URL of the video endpoint used by the output page for a job id. -/
def videoUrl (base jobId : String) : String :=
  base ++ "/api/video/" ++ jobId

/-- The stage badge text set on each successful poll: a numbered stage when
current_step is a known stage name, otherwise the raw current_step text. -/
def renderStageBadge (currentStep : String) : String :=
  let stepIdx := jsIndexOf stepNames currentStep
  if stepIdx ≥ 0 then "Stage " ++ padStart2 (stepIdx.toNat + 1) else currentStep

/-- What updatePipelineStep does to the step element at index idx: unknown
step names leave every element unchanged; otherwise elements before the
current index are marked completed and the current one active. -/
inductive StepVisual
  | completed
  | active
  | unchanged
  deriving DecidableEq, Repr

/-- The per-element effect of updatePipelineStep(currentStep) on step element
idx (0-based over the six step rows). -/
def updatePipelineStep (currentStep : String) (idx : Nat) : StepVisual :=
  let currentIdx := jsIndexOf stepNames currentStep
  if currentIdx < 0 then .unchanged
  else if (idx : Int) < currentIdx then .completed
  else if (idx : Int) = currentIdx then .active
  else .unchanged

/-- The log lines appended by the step-transition block of pollStatus
(lines guarded by current_step differing from lastStep and not being
queued): a Pipeline line for the newly observed stage when it is a known
stage, followed by a Success completion line for the previously observed
stage when that was a known stage. -/
def stepTransitionLines (lastStep currentStep : String) : List LogLine :=
  if currentStep ≠ lastStep ∧ currentStep ≠ "queued" then
    (let stepIdx := jsIndexOf stepNames currentStep
     if stepIdx ≥ 0 then
       [⟨"Pipeline", (stepLabels.getD stepIdx.toNat "") ++ "...", false⟩]
     else []) ++
    (if lastStep ≠ "" ∧ lastStep ≠ "queued" then
       let prevIdx := jsIndexOf stepNames lastStep
       if prevIdx ≥ 0 then
         [⟨"Success", (stepLabels.getD prevIdx.toNat "") ++ " — completed", true⟩]
       else []
     else [])
  else []

/-- The lastStep variable after one poll body: updated to current_step
exactly when the step-transition block ran. -/
def nextLastStep (lastStep currentStep : String) : String :=
  if currentStep ≠ lastStep ∧ currentStep ≠ "queued" then currentStep else lastStep

/-- The parsed JSON body of a successful status response.  Absent optional
fields (error) are the empty string, matching JS falsiness. -/
structure StatusData where
  status : String
  current_step : String
  progress : Int
  message : String
  error : String
  deriving DecidableEq, Repr

/-- The outcome of one fetch of the status endpoint as seen by pollStatus:
a transport error (fetch rejected, with the thrown message), a non-ok HTTP
response with its status code, or an ok response with parsed data. -/
inductive PollResponse
  | transportError (msg : String)
  | httpError (status : Nat)
  | ok (data : StatusData)
  deriving DecidableEq, Repr

/-- Everything one invocation of the pollStatus body does, as observable
effects: log lines appended in order, the new lastStep, whether and with
what delay another poll is scheduled, whether navigation to output.html is
scheduled, whether updatePipelineStep was invoked (and with which step),
the texts written to the stage badge and status label (none = untouched),
and whether the stored job id was discarded (never). -/
structure PollResult where
  logLines : List LogLine
  lastStep : String
  schedulesNext : Bool
  nextDelayMs : Nat
  navigatesToOutput : Bool
  vizUpdated : Option String
  stageBadgeText : Option String
  statusLabelText : Option String
  clearsJobId : Bool
  deriving DecidableEq, Repr

/-- One invocation of pollStatus, given the lastStep closure variable and the
outcome of the fetch.  Mirrors the control flow of the process page: 404
warns and retries in 5000 ms; any other non-ok status throws and is caught,
warning and retrying in 5000 ms; a transport error likewise; an ok response
updates badge and label, runs the step-transition block, then stops on the
terminal statuses completed (scheduling navigation to output.html) and
failed (logging the error), and otherwise schedules the next poll in
3000 ms. -/
def pollStatus (lastStep : String) (resp : PollResponse) : PollResult :=
  match resp with
  | .transportError msg =>
      { logLines := [⟨"Warn", "Connection issue: " ++ msg ++ ". Retrying...", false⟩],
        lastStep := lastStep, schedulesNext := true, nextDelayMs := 5000,
        navigatesToOutput := false, vizUpdated := none, stageBadgeText := none,
        statusLabelText := none, clearsJobId := false }
  | .httpError status =>
      if status = 404 then
        { logLines := [⟨"Warn", "Job not found on server (possible restart). Retrying...", false⟩],
          lastStep := lastStep, schedulesNext := true, nextDelayMs := 5000,
          navigatesToOutput := false, vizUpdated := none, stageBadgeText := none,
          statusLabelText := none, clearsJobId := false }
      else
        { logLines := [⟨"Warn", "Connection issue: Status check failed: " ++ toString status ++ ". Retrying...", false⟩],
          lastStep := lastStep, schedulesNext := true, nextDelayMs := 5000,
          navigatesToOutput := false, vizUpdated := none, stageBadgeText := none,
          statusLabelText := none, clearsJobId := false }
  | .ok data =>
      let badge := renderStageBadge data.current_step
      let label := jsOr data.message "Processing..."
      let viz : Option String :=
        if data.current_step ≠ lastStep ∧ data.current_step ≠ "queued" then
          some data.current_step
        else none
      let transLines := stepTransitionLines lastStep data.current_step
      let newLast := nextLastStep lastStep data.current_step
      if data.status = "completed" then
        { logLines := transLines ++ [⟨"Success", "Pipeline completed successfully! ✅", true⟩],
          lastStep := newLast, schedulesNext := false, nextDelayMs := 0,
          navigatesToOutput := true, vizUpdated := viz, stageBadgeText := some badge,
          statusLabelText := some label, clearsJobId := false }
      else if data.status = "failed" then
        { logLines := transLines ++ [⟨"Error", "Pipeline failed: " ++ jsOr data.error data.message, false⟩],
          lastStep := newLast, schedulesNext := false, nextDelayMs := 0,
          navigatesToOutput := false, vizUpdated := viz, stageBadgeText := some "Failed",
          statusLabelText := some "PIPELINE FAILED", clearsJobId := false }
      else
        { logLines := transLines, lastStep := newLast, schedulesNext := true,
          nextDelayMs := 3000, navigatesToOutput := false, vizUpdated := viz,
          stageBadgeText := some badge, statusLabelText := some label,
          clearsJobId := false }

/-- The output page video source: when a job id is stored, the video element
src is set to the video endpoint for that id; with no stored id no request
is made. -/
def outputPageVideoSrc (base : String) (jobId : Option String) : Option String :=
  match jobId with
  | some j => some (videoUrl base j)
  | none => none

/-- The state of the create-page form when Generate is clicked: the chosen
file (its name) if any, and the raw text of the topic-description field
(the handler trims it; a missing element is the empty string). -/
structure CreateForm where
  file : Option String
  rawDescription : String
  deriving DecidableEq, Repr

/-- The outcome of the fetch of the submission endpoint as seen by the
Generate click handler: a transport/parse error with the thrown message, a
non-ok HTTP response with its error detail, or an ok response carrying the
parsed job_id. -/
inductive GenerateResponse
  | transportError (msg : String)
  | httpError (detail : String)
  | ok (job_id : String)
  deriving DecidableEq, Repr

/-- Everything one Generate click does, as observable effects: whether the
client-side validation alert fired, whether a request was sent (at most one
per click), the FormData field names appended in order, the button disabled
flag while the request was in flight and after the handler finished,
whether the handler navigated to process.html, and the job id saved to
localStorage (none = not written). -/
structure ClickResult where
  validationAlert : Bool
  requestSent : Bool
  formFields : List String
  disabledDuringRequest : Bool
  finalDisabled : Bool
  navigatesToProcess : Bool
  savedJobId : Option String
  deriving DecidableEq, Repr

/-- One Generate click, given the form state and the outcome of the fetch
(ignored when validation refuses to send).  Mirrors the create-page
handler: with neither file nor trimmed description it alerts and returns
without disabling the button or sending anything; otherwise it disables
the button, appends the file field when a file was chosen and the
description field when the trimmed description is non-empty, sends the
request, and on success saves job_id and navigates to process.html with
the button still disabled, while any thrown error alerts and re-enables
the button. -/
def generateClick (form : CreateForm) (resp : GenerateResponse) : ClickResult :=
  let description := jsTrim form.rawDescription
  if form.file = none ∧ description = "" then
    { validationAlert := true, requestSent := false, formFields := [],
      disabledDuringRequest := false, finalDisabled := false,
      navigatesToProcess := false, savedJobId := none }
  else
    let fields :=
      (if form.file.isSome then ["file"] else []) ++
      (if description ≠ "" then ["description"] else [])
    match resp with
    | .ok jobId =>
        { validationAlert := false, requestSent := true, formFields := fields,
          disabledDuringRequest := true, finalDisabled := true,
          navigatesToProcess := true, savedJobId := some jobId }
    | _ =>
        { validationAlert := false, requestSent := true, formFields := fields,
          disabledDuringRequest := true, finalDisabled := false,
          navigatesToProcess := false, savedJobId := none }

/-- Modelled from the spec: a Job record as the backend Job Store holds it
(the backend source is not under src/; only its README is).  Fields follow
the data model of the spec. -/
structure SpecJob where
  id : String
  status : String
  currentStage : String
  progress : Int
  message : String
  error : String
  deriving DecidableEq, Repr

/-- Modelled from the spec: the backend Job Store as a list of jobs keyed by
id. -/
structure BackendState where
  jobs : List SpecJob
  deriving DecidableEq, Repr

/-- Modelled from the spec: the result of the submission endpoint — HTTP 400
with a descriptive detail, or success carrying the job_id of the created
job. -/
inductive SubmitResult
  | badRequest (detail : String)
  | created (job_id : String)
  deriving DecidableEq, Repr

/-- Modelled from the spec: the submission endpoint, which is not under src/.
It validates that a file or a non-empty description is present, rejecting a
request with neither as HTTP 400 and creating no job; on acceptance it
creates a Job in state queued with progress 0 under a fresh id and returns
that id. -/
def submissionEndpoint (st : BackendState) (hasFile : Bool) (description : String)
    (freshId : String) : SubmitResult × BackendState :=
  if !hasFile ∧ description = "" then
    (.badRequest "Either a file or a description is required", st)
  else
    let job : SpecJob :=
      { id := freshId, status := "queued", currentStage := "queued",
        progress := 0, message := "Job queued", error := "" }
    (.created freshId, { jobs := st.jobs ++ [job] })

/-- Modelled from the spec: the orchestrator-visible state of one job, for
the lifecycle invariants — its status string and the index of currentStage
in the pipeline order (none while the sentinel queued). -/
structure OrchJob where
  status : String
  stageIdx : Option Nat
  deriving DecidableEq, Repr

/-- Modelled from the spec: a job as the submission endpoint creates it,
queued with the sentinel stage. -/
def orchInit : OrchJob :=
  { status := "queued", stageIdx := none }

/-- The index of currentStage in the pipeline order, with the queued sentinel
counting as index 0 (the stage the job will start at). -/
def stageIdxN (j : OrchJob) : Nat :=
  j.stageIdx.getD 0

/-- Modelled from the spec: the orchestrator transitions on one job.  It
starts a queued job at stage 0; after a stage succeeds it advances to the
next stage; after the last stage succeeds it marks the job completed; a
stage failure marks the job failed, leaving currentStage at the failing
stage.  Statuses completed and failed have no outgoing transition. -/
inductive OrchStep : OrchJob → OrchJob → Prop
  | start :
      OrchStep ⟨"queued", none⟩ ⟨"running", some 0⟩
  | advance (i : Nat) (h : i + 1 < pipelineStages.length) :
      OrchStep ⟨"running", some i⟩ ⟨"running", some (i + 1)⟩
  | complete :
      OrchStep ⟨"running", some (pipelineStages.length - 1)⟩
               ⟨"completed", some (pipelineStages.length - 1)⟩
  | fail (i : Nat) :
      OrchStep ⟨"running", some i⟩ ⟨"failed", some i⟩

/-- A job lifetime: the reflexive-transitive closure of the orchestrator
transitions from the initial queued state. -/
def OrchReachable (j : OrchJob) : Prop :=
  Relation.ReflTransGen OrchStep orchInit j

/-- Invariant carried by every reachable job state: the stage index stays
inside the pipeline. -/
def OrchInv (j : OrchJob) : Prop :=
  stageIdxN j < pipelineStages.length

lemma jsIndexOfAux_of_not_mem (s : String) (l : List String) :
    ∀ acc : Int, s ∉ l → jsIndexOfAux s l acc = -1 := by
  induction l with
  | nil => intro acc _; rfl
  | cons x xs ih =>
      intro acc h
      rw [List.mem_cons, not_or] at h
      have hx : ¬ (x == s) = true := by
        simp only [beq_iff_eq]
        exact fun e => h.1 e.symm
      simp only [jsIndexOfAux, if_neg hx]
      exact ih _ h.2

lemma jsIndexOfAux_ge_of_mem (s : String) (l : List String) :
    ∀ acc : Int, s ∈ l → acc ≤ jsIndexOfAux s l acc := by
  induction l with
  | nil => intro acc h; exact absurd h (List.not_mem_nil s)
  | cons x xs ih =>
      intro acc h
      by_cases hx : (x == s) = true
      · simp only [jsIndexOfAux, if_pos hx]
        exact le_refl acc
      · have hmem : s ∈ xs := by
          rcases List.mem_cons.mp h with h1 | h2
          · exact absurd (beq_iff_eq.mpr h1.symm) hx
          · exact h2
        simp only [jsIndexOfAux, if_neg hx]
        calc acc ≤ acc + 1 := by omega
          _ ≤ jsIndexOfAux s xs (acc + 1) := ih _ hmem

/-- The indexOf check used throughout the process page is exactly a
membership test: the index is non-negative iff the string is in the
list. -/
lemma jsIndexOf_nonneg_iff (l : List String) (s : String) :
    0 ≤ jsIndexOf l s ↔ s ∈ l := by
  constructor
  · intro h
    by_contra hm
    rw [jsIndexOf, jsIndexOfAux_of_not_mem s l 0 hm] at h
    omega
  · intro h
    exact jsIndexOfAux_ge_of_mem s l 0 h

lemma jsIndexOf_neg_of_not_mem (l : List String) (s : String) (h : s ∉ l) :
    jsIndexOf l s < 0 := by
  rw [jsIndexOf, jsIndexOfAux_of_not_mem s l 0 h]
  omega

/-- Claim C1: for every status-poll response the client stops polling iff
the job status is terminal; on completed it schedules no further poll and
navigates to the output page, whose video element requests the video
endpoint for the stored job id; on failed it logs the error/message and
schedules no further poll without navigating; on any other status (and on
any non-ok response) it schedules another poll. -/
theorem claim_C1 (l : String) (d : StatusData) :
    ((pollStatus l (.ok d)).schedulesNext = false ↔
      d.status = "completed" ∨ d.status = "failed") ∧
    ((pollStatus l (.ok d)).navigatesToOutput = true ↔ d.status = "completed") ∧
    (d.status = "failed" →
      (⟨"Error", "Pipeline failed: " ++ jsOr d.error d.message, false⟩ : LogLine) ∈
          (pollStatus l (.ok d)).logLines ∧
      (pollStatus l (.ok d)).navigatesToOutput = false) ∧
    (∀ resp : PollResponse, (∀ d2, resp ≠ .ok d2) →
      (pollStatus l resp).schedulesNext = true) ∧
    (∀ base j, outputPageVideoSrc base (some j) = some (videoUrl base j)) := by
  refine ⟨?_, ?_, ?_, ?_, ?_⟩
  · by_cases hc : d.status = "completed"
    · simp [pollStatus, hc]
    · by_cases hf : d.status = "failed"
      · simp [pollStatus, hc, hf]
      · simp [pollStatus, hc, hf]
  · by_cases hc : d.status = "completed"
    · simp [pollStatus, hc]
    · by_cases hf : d.status = "failed"
      · simp [pollStatus, hc, hf]
      · simp [pollStatus, hc, hf]
  · intro hf
    have hc : d.status ≠ "completed" := by
      rw [hf]; intro h; exact absurd h (by decide)
    simp [pollStatus, hc, hf]
  · intro resp hne
    match resp with
    | .transportError m => simp [pollStatus]
    | .httpError s =>
        by_cases h4 : s = 404
        · simp [pollStatus, h4]
        · simp [pollStatus, h4]
    | .ok d2 => exact absurd rfl (hne d2)
  · intro base j
    rfl

/-- Witness for claim C1 at concrete completed and failed polls. -/
theorem claim_C1_witness :
    ((pollStatus "" (.ok ⟨"completed", "quality", 100, "done", ""⟩)).schedulesNext = false ↔
      ("completed" = "completed" ∨ "completed" = "failed")) ∧
    ((⟨"Error", "Pipeline failed: " ++ jsOr "boom" "msg", false⟩ : LogLine) ∈
        (pollStatus "" (.ok ⟨"failed", "narration", 50, "msg", "boom"⟩)).logLines ∧
      (pollStatus "" (.ok ⟨"failed", "narration", 50, "msg", "boom"⟩)).navigatesToOutput = false) ∧
    (pollStatus "" (.httpError 500)).schedulesNext = true :=
  ⟨(claim_C1 "" ⟨"completed", "quality", 100, "done", ""⟩).1,
   (claim_C1 "" ⟨"failed", "narration", 50, "msg", "boom"⟩).2.2.1 rfl,
   (claim_C1 "" ⟨"failed", "narration", 50, "msg", "boom"⟩).2.2.2.1 (.httpError 500)
     (fun d2 h => PollResponse.noConfusion h)⟩

/-- Claim C3: the client polls again in 3000 ms on every non-terminal ok
response, and in 5000 ms after a transport error or an HTTP 404. -/
theorem claim_C3 (l : String) (d : StatusData) (m : String) :
    (d.status ≠ "completed" → d.status ≠ "failed" →
      (pollStatus l (.ok d)).schedulesNext = true ∧
      (pollStatus l (.ok d)).nextDelayMs = 3000) ∧
    ((pollStatus l (.transportError m)).schedulesNext = true ∧
      (pollStatus l (.transportError m)).nextDelayMs = 5000) ∧
    ((pollStatus l (.httpError 404)).schedulesNext = true ∧
      (pollStatus l (.httpError 404)).nextDelayMs = 5000) := by
  refine ⟨?_, ?_, ?_⟩
  · intro hc hf
    simp [pollStatus, hc, hf]
  · simp [pollStatus]
  · simp [pollStatus]

/-- Witness for claim C3 at a concrete non-terminal poll. -/
theorem claim_C3_witness :
    (pollStatus "" (.ok ⟨"running", "extraction", 0, "Working", ""⟩)).schedulesNext = true ∧
    (pollStatus "" (.ok ⟨"running", "extraction", 0, "Working", ""⟩)).nextDelayMs = 3000 :=
  (claim_C3 "" ⟨"running", "extraction", 0, "Working", ""⟩ "x").1
    (by decide) (by decide)

/-- Claim C4: on an HTTP 404 status response the client logs a warning line,
schedules another poll in 5000 ms, does not navigate away, and does not
discard the stored job id. -/
theorem claim_C4 (l : String) :
    (⟨"Warn", "Job not found on server (possible restart). Retrying...", false⟩ : LogLine) ∈
        (pollStatus l (.httpError 404)).logLines ∧
    (pollStatus l (.httpError 404)).schedulesNext = true ∧
    (pollStatus l (.httpError 404)).nextDelayMs = 5000 ∧
    (pollStatus l (.httpError 404)).navigatesToOutput = false ∧
    (pollStatus l (.httpError 404)).clearsJobId = false := by
  simp [pollStatus]

/-- Claim C5: the client's stage list enumerates exactly the six pipeline
stage names in pipeline order, matching the Pipeline Definition; the
numbered-stage branch of the badge rendering fires exactly on membership in
that list, an unknown current_step is rendered raw, and every member is
rendered as a numbered stage. -/
theorem claim_C5 :
    stepNames = pipelineStages ∧
    stepNames = ["extraction", "planning", "animation", "narration", "composition", "quality"] ∧
    stepNames.length = 6 ∧
    (∀ s : String, 0 ≤ jsIndexOf stepNames s ↔ s ∈ stepNames) ∧
    (∀ s : String, s ∉ stepNames → renderStageBadge s = s) ∧
    (∀ s ∈ stepNames, ∃ n : Nat, n < 6 ∧ renderStageBadge s = "Stage " ++ padStart2 (n + 1)) := by
  refine ⟨rfl, rfl, rfl, fun s => jsIndexOf_nonneg_iff _ s, ?_, ?_⟩
  · intro s hs
    have h := jsIndexOf_neg_of_not_mem stepNames s hs
    have h2 : ¬ (jsIndexOf stepNames s ≥ 0) := by omega
    simp only [renderStageBadge, if_neg h2]
  · intro s hs
    fin_cases hs
    · exact ⟨0, by omega, by decide⟩
    · exact ⟨1, by omega, by decide⟩
    · exact ⟨2, by omega, by decide⟩
    · exact ⟨3, by omega, by decide⟩
    · exact ⟨4, by omega, by decide⟩
    · exact ⟨5, by omega, by decide⟩

/-- Witness for claim C5 at concrete inputs for the conditional parts. -/
theorem claim_C5_witness :
    ("queued" ∉ stepNames ∧ renderStageBadge "queued" = "queued") ∧
    ("extraction" ∈ stepNames ∧
      ∃ n : Nat, n < 6 ∧ renderStageBadge "extraction" = "Stage " ++ padStart2 (n + 1)) :=
  ⟨⟨by decide, claim_C5.2.2.2.2.1 "queued" (by decide)⟩,
   ⟨by decide, claim_C5.2.2.2.2.2 "extraction" (by decide)⟩⟩

/-- Claim C9: updatePipelineStep with a step name outside the six known
stages leaves every step element unchanged; the poll handler skips the
visualization update whenever current_step is queued; and queued, not
being a known stage, is rendered raw in the stage badge. -/
theorem claim_C9 (s l : String) (d : StatusData) :
    (s ∉ stepNames → ∀ idx : Nat, updatePipelineStep s idx = .unchanged) ∧
    (d.current_step = "queued" → (pollStatus l (.ok d)).vizUpdated = none) ∧
    ("queued" ∉ stepNames ∧ renderStageBadge "queued" = "queued") := by
  refine ⟨?_, ?_, by decide, by decide⟩
  · intro hs idx
    have h := jsIndexOf_neg_of_not_mem stepNames s hs
    simp only [updatePipelineStep, if_pos h]
  · intro hq
    by_cases hc : d.status = "completed"
    · simp [pollStatus, hc, hq]
    · by_cases hf : d.status = "failed"
      · simp [pollStatus, hc, hf, hq]
      · simp [pollStatus, hc, hf, hq]

/-- Witness for claim C9 at concrete inputs. -/
theorem claim_C9_witness :
    updatePipelineStep "queued" 0 = .unchanged ∧
    (pollStatus "" (.ok ⟨"running", "queued", 0, "", ""⟩)).vizUpdated = none :=
  ⟨(claim_C9 "queued" "" ⟨"running", "queued", 0, "", ""⟩).1 (by decide) 0,
   (claim_C9 "queued" "" ⟨"running", "queued", 0, "", ""⟩).2.1 rfl⟩

/-- A Pipeline-tagged line is in the step-transition block's output exactly
when the block ran and the newly observed step is a known stage; its
message is that stage's label. -/
lemma pipeline_mem_stepTransitionLines (last cur m : String) :
    (⟨"Pipeline", m, false⟩ : LogLine) ∈ stepTransitionLines last cur ↔
      cur ≠ last ∧ cur ≠ "queued" ∧ 0 ≤ jsIndexOf stepNames cur ∧
      m = stepLabels.getD (jsIndexOf stepNames cur).toNat "" ++ "..." := by
  rw [stepTransitionLines]
  split_ifs with h1 h2 h3 h4 <;>
    simp_all [LogLine.mk.injEq, ge_iff_le] <;>
    tauto

/-- A Success-completed line is in the step-transition block's output exactly
when the block ran and the previously observed step was a known stage; its
message is that stage's label. -/
lemma success_mem_stepTransitionLines (last cur m : String) :
    (⟨"Success", m, true⟩ : LogLine) ∈ stepTransitionLines last cur ↔
      cur ≠ last ∧ cur ≠ "queued" ∧ last ≠ "" ∧ last ≠ "queued" ∧
      0 ≤ jsIndexOf stepNames last ∧
      m = stepLabels.getD (jsIndexOf stepNames last).toNat "" ++ " — completed" := by
  rw [stepTransitionLines]
  split_ifs with h1 h2 h3 h4 <;>
    simp_all [LogLine.mk.injEq, ge_iff_le] <;>
    tauto

lemma mem_stepNames_ne (s : String) (hs : s ∈ stepNames) :
    s ≠ "" ∧ s ≠ "queued" := by
  fin_cases hs <;> exact ⟨by decide, by decide⟩

/-- Claim C10: the step-transition block appends nothing when current_step
equals the previously observed step or is queued; a Pipeline line is
appended exactly when a known stage is newly observed; a Success completion
line for the previous stage is appended exactly at the transition away from
a known stage; and a repeat observation right after any poll appends no
lines, so no duplicate stage lines arise. -/
theorem claim_C10 (last cur : String) :
    (cur = last ∨ cur = "queued" → stepTransitionLines last cur = []) ∧
    ((∃ m, (⟨"Pipeline", m, false⟩ : LogLine) ∈ stepTransitionLines last cur) ↔
      cur ∈ stepNames ∧ cur ≠ last) ∧
    ((∃ m, (⟨"Success", m, true⟩ : LogLine) ∈ stepTransitionLines last cur) ↔
      last ∈ stepNames ∧ cur ≠ last ∧ cur ≠ "queued") ∧
    stepTransitionLines (nextLastStep last cur) cur = [] := by
  have hq : ("queued" : String) ∉ stepNames := by decide
  refine ⟨?_, ?_, ?_, ?_⟩
  · intro h
    rw [stepTransitionLines, if_neg]
    tauto
  · constructor
    · rintro ⟨m, hm⟩
      rw [pipeline_mem_stepTransitionLines] at hm
      exact ⟨(jsIndexOf_nonneg_iff _ _).mp hm.2.2.1, hm.1⟩
    · rintro ⟨hmem, hne⟩
      refine ⟨_, (pipeline_mem_stepTransitionLines last cur _).mpr
        ⟨hne, (mem_stepNames_ne cur hmem).2, (jsIndexOf_nonneg_iff _ _).mpr hmem, rfl⟩⟩
  · constructor
    · rintro ⟨m, hm⟩
      rw [success_mem_stepTransitionLines] at hm
      exact ⟨(jsIndexOf_nonneg_iff _ _).mp hm.2.2.2.2.1, hm.1, hm.2.1⟩
    · rintro ⟨hmem, hne, hnq⟩
      have h2 := mem_stepNames_ne last hmem
      refine ⟨_, (success_mem_stepTransitionLines last cur _).mpr
        ⟨hne, hnq, h2.1, h2.2, (jsIndexOf_nonneg_iff _ _).mpr hmem, rfl⟩⟩
  · by_cases hcq : cur = "queued"
    · rw [stepTransitionLines, if_neg]
      tauto
    · have : nextLastStep last cur = cur := by
        rw [nextLastStep]
        by_cases hcl : cur = last
        · rw [if_neg (by tauto)]
          exact hcl.symm
        · rw [if_pos ⟨hcl, hcq⟩]
      rw [this, stepTransitionLines, if_neg]
      tauto

/-- Witness for claim C10 at a concrete stage transition. -/
theorem claim_C10_witness :
    stepTransitionLines "extraction" "extraction" = [] ∧
    (∃ m, (⟨"Pipeline", m, false⟩ : LogLine) ∈ stepTransitionLines "extraction" "planning") ∧
    (∃ m, (⟨"Success", m, true⟩ : LogLine) ∈ stepTransitionLines "extraction" "planning") :=
  ⟨(claim_C10 "extraction" "extraction").1 (Or.inl rfl),
   (claim_C10 "extraction" "planning").2.1.mpr ⟨by decide, by decide⟩,
   (claim_C10 "extraction" "planning").2.2.1.mpr ⟨by decide, by decide, by decide⟩⟩

/-- Claim C2: a submission with neither a file nor a non-empty trimmed
description is refused client-side (alert, no request sent), and the
modelled submission endpoint answers such a request with HTTP 400, leaving
the Job Store unchanged. -/
theorem claim_C2 (form : CreateForm) (resp : GenerateResponse) (st : BackendState)
    (fid : String) :
    (form.file = none → jsTrim form.rawDescription = "" →
      (generateClick form resp).requestSent = false ∧
      (generateClick form resp).validationAlert = true) ∧
    (submissionEndpoint st false "" fid).1 =
      .badRequest "Either a file or a description is required" ∧
    (submissionEndpoint st false "" fid).2.jobs = st.jobs := by
  refine ⟨?_, rfl, rfl⟩
  intro hf hd
  simp [generateClick, hf, hd]

/-- Witness for claim C2 at a concrete empty submission. -/
theorem claim_C2_witness :
    (generateClick ⟨none, "   "⟩ (.ok "j")).requestSent = false ∧
    (generateClick ⟨none, "   "⟩ (.ok "j")).validationAlert = true :=
  (claim_C2 ⟨none, "   "⟩ (.ok "j") ⟨[]⟩ "id1").1 rfl (by decide)

/-- Claim C6: when a request is sent it is a multipart body with the file
field exactly when a file was chosen and the description field exactly when
a non-empty description was given, never empty; on success the returned
job_id is persisted, the modelled endpoint returns the created id whenever
at least one input is present, and the subsequent status and video requests
are built from the stored id. -/
theorem claim_C6 (form : CreateForm) (jid base : String) (st : BackendState)
    (hasFile : Bool) (desc fid : String) :
    ((generateClick form (.ok jid)).requestSent = true →
      ("file" ∈ (generateClick form (.ok jid)).formFields ↔ form.file.isSome = true) ∧
      ("description" ∈ (generateClick form (.ok jid)).formFields ↔
        jsTrim form.rawDescription ≠ "") ∧
      (generateClick form (.ok jid)).formFields ≠ []) ∧
    ((generateClick form (.ok jid)).requestSent = true →
      (generateClick form (.ok jid)).savedJobId = some jid) ∧
    (hasFile = true ∨ desc ≠ "" →
      ∃ st2 : BackendState, submissionEndpoint st hasFile desc fid = (.created fid, st2)) ∧
    statusUrl base jid = base ++ "/api/status/" ++ jid ∧
    videoUrl base jid = base ++ "/api/video/" ++ jid := by
  refine ⟨?_, ?_, ?_, rfl, rfl⟩
  · intro hsent
    by_cases hf : form.file = none
    · by_cases hd : jsTrim form.rawDescription = ""
      · exact absurd hsent (by simp [generateClick, hf, hd])
      · refine ⟨?_, ?_, ?_⟩ <;> simp [generateClick, hf, hd]
    · by_cases hd : jsTrim form.rawDescription = ""
      · refine ⟨?_, ?_, ?_⟩ <;>
          simp [generateClick, hf, hd, Option.isSome_iff_ne_none]
      · refine ⟨?_, ?_, ?_⟩ <;>
          simp [generateClick, hf, hd, Option.isSome_iff_ne_none]
  · intro hsent
    by_cases hf : form.file = none
    · by_cases hd : jsTrim form.rawDescription = ""
      · exact absurd hsent (by simp [generateClick, hf, hd])
      · simp [generateClick, hf, hd]
    · simp [generateClick, hf]
  · intro h
    have hcond : ¬((!hasFile) = true ∧ desc = "") := by
      rcases h with h | h
      · rw [h]
        simp
      · tauto
    refine ⟨{ jobs := st.jobs ++
      [{ id := fid, status := "queued", currentStage := "queued",
         progress := 0, message := "Job queued", error := "" }] }, ?_⟩
    rw [submissionEndpoint, if_neg hcond]

/-- Witness for claim C6 at a concrete submission with both inputs. -/
theorem claim_C6_witness :
    ("file" ∈ (generateClick ⟨some "d.pdf", "topic"⟩ (.ok "j1")).formFields ↔
      (some "d.pdf").isSome = true) ∧
    (generateClick ⟨some "d.pdf", "topic"⟩ (.ok "j1")).savedJobId = some "j1" ∧
    (∃ st2 : BackendState,
      submissionEndpoint ⟨[]⟩ true "topic" "j1" = (.created "j1", st2)) :=
  ⟨((claim_C6 ⟨some "d.pdf", "topic"⟩ "j1" "" ⟨[]⟩ true "topic" "j1").1 (by decide)).1,
   (claim_C6 ⟨some "d.pdf", "topic"⟩ "j1" "" ⟨[]⟩ true "topic" "j1").2.1 (by decide),
   (claim_C6 ⟨some "d.pdf", "topic"⟩ "j1" "" ⟨[]⟩ true "topic" "j1").2.2.1 (Or.inl rfl)⟩

/-- Claim C8: whenever a Generate click sends a request the button was
disabled before the send; it ends re-enabled exactly when the submission
attempt failed; and on success the client navigates to the process page
with the button still disabled — so one click issues at most the one
modelled request. -/
theorem claim_C8 (form : CreateForm) (resp : GenerateResponse) :
    ((generateClick form resp).requestSent = true →
      (generateClick form resp).disabledDuringRequest = true) ∧
    ((generateClick form resp).requestSent = true →
      ((generateClick form resp).finalDisabled = false ↔ ∀ j, resp ≠ .ok j)) ∧
    (∀ j, resp = .ok j →
      (generateClick form resp).requestSent = true →
      (generateClick form resp).navigatesToProcess = true ∧
      (generateClick form resp).finalDisabled = true) := by
  by_cases hv : form.file = none ∧ jsTrim form.rawDescription = ""
  · have hns : (generateClick form resp).requestSent = false := by
      simp [generateClick, hv]
    refine ⟨?_, ?_, ?_⟩
    · intro h
      rw [hns] at h
      cases h
    · intro h
      rw [hns] at h
      cases h
    · intro j _ h
      rw [hns] at h
      cases h
  · rcases resp with m | detail | j
    · refine ⟨fun _ => by simp [generateClick, hv], fun _ => ?_,
        fun j2 hj2 => by cases hj2⟩
      simp [generateClick, hv]
    · refine ⟨fun _ => by simp [generateClick, hv], fun _ => ?_,
        fun j2 hj2 => by cases hj2⟩
      simp [generateClick, hv]
    · refine ⟨fun _ => by simp [generateClick, hv], fun _ => ?_,
        fun j2 hj2 _ => by simp [generateClick, hv]⟩
      simp only [generateClick, hv, if_neg hv]
      constructor
      · intro h
        exact absurd h (by simp)
      · intro h
        exact absurd rfl (h j)

/-- Witness for claim C8 at concrete failing and succeeding submissions. -/
theorem claim_C8_witness :
    (generateClick ⟨none, "topic"⟩ (.httpError "bad")).disabledDuringRequest = true ∧
    ((generateClick ⟨none, "topic"⟩ (.httpError "bad")).finalDisabled = false ↔
      ∀ j, (GenerateResponse.httpError "bad") ≠ .ok j) ∧
    ((generateClick ⟨none, "topic"⟩ (.ok "j")).navigatesToProcess = true ∧
      (generateClick ⟨none, "topic"⟩ (.ok "j")).finalDisabled = true) :=
  ⟨(claim_C8 ⟨none, "topic"⟩ (.httpError "bad")).1 (by decide),
   (claim_C8 ⟨none, "topic"⟩ (.httpError "bad")).2.1 (by decide),
   (claim_C8 ⟨none, "topic"⟩ (.ok "j")).2.2 "j" rfl (by decide)⟩

lemma orchInv_init : OrchInv orchInit := by
  rw [OrchInv]
  decide

lemma orchInv_step (j j' : OrchJob) (hj : OrchInv j) (h : OrchStep j j') :
    OrchInv j' := by
  cases h with
  | start => rw [OrchInv]; decide
  | advance i hi => exact hi
  | complete => rw [OrchInv]; decide
  | fail i => exact hj

lemma orchReachable_inv (j : OrchJob) (h : OrchReachable j) : OrchInv j := by
  induction h with
  | refl => exact orchInv_init
  | tail _ hbc ih => exact orchInv_step _ _ ih hbc

lemma orchStep_bounds (j j' : OrchJob) (h : OrchStep j j') :
    stageIdxN j ≤ stageIdxN j' ∧ stageIdxN j' ≤ stageIdxN j + 1 := by
  cases h with
  | start => constructor <;> simp [stageIdxN]
  | advance i hi => constructor <;> simp [stageIdxN]
  | complete => constructor <;> simp [stageIdxN]
  | fail i => constructor <;> simp [stageIdxN]

/-- Claim C7: along any job lifetime (any orchestrator transition out of a
reachable state), the stage index is non-decreasing, advances by at most
one stage at a time, and stays inside the pipeline length. -/
theorem claim_C7 (j j' : OrchJob) (hr : OrchReachable j) (hs : OrchStep j j') :
    stageIdxN j ≤ stageIdxN j' ∧
    stageIdxN j' ≤ stageIdxN j + 1 ∧
    stageIdxN j < pipelineStages.length ∧
    stageIdxN j' < pipelineStages.length := by
  have hinv := orchReachable_inv j hr
  have hinv' := orchInv_step j j' hinv hs
  have hb := orchStep_bounds j j' hs
  exact ⟨hb.1, hb.2, hinv, hinv'⟩

/-- Witness for claim C7 at the first transition of a fresh job. -/
theorem claim_C7_witness :
    stageIdxN orchInit ≤ stageIdxN ⟨"running", some 0⟩ ∧
    stageIdxN ⟨"running", some 0⟩ ≤ stageIdxN orchInit + 1 ∧
    stageIdxN orchInit < pipelineStages.length ∧
    stageIdxN ⟨"running", some 0⟩ < pipelineStages.length :=
  claim_C7 orchInit ⟨"running", some 0⟩ Relation.ReflTransGen.refl OrchStep.start

end Granite
